import Mathlib

/-!
Verification of the ImpactBridge crisis-coordination application.

The development shallowly embeds the logical core of the repository:
the priority calculator (`services.py` / `app.py`), the field validators
(`validators.py`), the creation/listing operations of the service layer
(`services.py`) and of the sqlite handlers (`app.py`), and the dashboard
aggregation of both variants.  Form input is a mapping of optional raw
strings; the store is explicit state threaded through the operations;
timestamps are supplied by the caller as naturals.
-/

namespace ImpactBridge

/-- Priority formula of `CrisisService.calculate_priority` (`services.py`)
and of the helper `calculate_priority` (`app.py`):
`(severity * 3) + (people_affected * 2) + (urgency * 4) - (available_resources * 2)`. -/
def calculate_priority (severity people_affected urgency available_resources : Int) : Int :=
  (severity * 3) + (people_affected * 2) + (urgency * 4) - (available_resources * 2)

/-- Python `str.strip()`: remove leading and trailing whitespace.
Implemented structurally over the character list so that concrete
instances compute. -/
def pyStrip (s : String) : String :=
  ⟨((s.data.dropWhile Char.isWhitespace).reverse.dropWhile Char.isWhitespace).reverse⟩

/-- Numeric value of a list of decimal digit characters. -/
def decimalValue (l : List Char) : Nat :=
  l.foldl (fun acc c => acc * 10 + (c.toNat - 48)) 0

/-- Python `int(s)` on an optionally signed decimal string: surrounding
whitespace is stripped, an optional sign is followed by at least one digit;
any other shape raises `ValueError`, modelled as `none`. -/
def pyInt (s : String) : Option Int :=
  match (pyStrip s).data with
  | [] => none
  | c :: cs =>
      if c = '-' then
        if cs ≠ [] ∧ cs.all Char.isDigit then some (-(decimalValue cs : Int)) else none
      else if c = '+' then
        if cs ≠ [] ∧ cs.all Char.isDigit then some ((decimalValue cs : Int)) else none
      else
        if (c :: cs).all Char.isDigit then some ((decimalValue (c :: cs) : Int)) else none

/-- Raw crisis-report form (`request.form` for `/cases/new`): each field is
present with a raw string value or absent. -/
structure CrisisForm where
  title : Option String
  description : Option String
  severity : Option String
  urgency : Option String
  people_affected : Option String
  available_resources : Option String
  required_skill : Option String
deriving DecidableEq, Repr

/-- Raw volunteer-registration form (`request.form` for `/volunteers/register`). -/
structure VolunteerForm where
  name : Option String
  skills : Option String
  availability : Option String
deriving DecidableEq, Repr

/-- Field access data.get(key, default-empty-string) followed by strip():
absent keys default to the empty string,
then surrounding whitespace is stripped. -/
def formStr (v : Option String) : String := pyStrip (v.getD (""))

/-- Numeric field access int(data.get(key, 0)): an absent key defaults to
the integer `0`
(which `int` returns unchanged); a present value is parsed as a decimal
string, `none` on parse failure. -/
def formInt (v : Option String) : Option Int :=
  match v with
  | none => some 0
  | some s => pyInt s

/-- Title checks of `CrisisValidator.validate_create`: required,
length at least 5, length at most 200 (checked on the stripped value). -/
def titleErrors (t : String) : List String :=
  if t = "" then ["Situation title is required"]
  else if t.length < 5 then ["Situation title must be at least 5 characters"]
  else if t.length > 200 then ["Situation title must not exceed 200 characters"]
  else []

/-- Description checks: required, length at least 20, length at most 5000. -/
def descriptionErrors (t : String) : List String :=
  if t = "" then ["Situation assessment is required"]
  else if t.length < 20 then ["Situation assessment must be at least 20 characters"]
  else if t.length > 5000 then ["Situation assessment must not exceed 5000 characters"]
  else []

/-- Severity checks: parse failure is a type error, otherwise the value
must lie in `[1, 5]`. -/
def severityErrors (v : Option Int) : List String :=
  match v with
  | some severity =>
      if ¬ (1 ≤ severity ∧ severity ≤ 5) then ["Severity must be between 1 and 5"] else []
  | none => ["Severity must be a valid number"]

/-- Urgency checks: parse failure is a type error, otherwise the value
must lie in `[1, 5]`. -/
def urgencyErrors (v : Option Int) : List String :=
  match v with
  | some urgency =>
      if ¬ (1 ≤ urgency ∧ urgency ≤ 5) then ["Urgency must be between 1 and 5"] else []
  | none => ["Urgency must be a valid number"]

/-- People-affected checks: parse failure is a type error, otherwise the
value must be non-negative and at most 10,000,000. -/
def peopleAffectedErrors (v : Option Int) : List String :=
  match v with
  | some people_affected =>
      if people_affected < 0 then ["Population impact cannot be negative"]
      else if people_affected > 10000000 then ["Population impact exceeds maximum value"]
      else []
  | none => ["Population impact must be a valid number"]

/-- Available-resources checks: parse failure is a type error, otherwise the
value must be non-negative and at most 1,000,000. -/
def availableResourcesErrors (v : Option Int) : List String :=
  match v with
  | some available_resources =>
      if available_resources < 0 then ["Current resources cannot be negative"]
      else if available_resources > 1000000 then ["Current resources exceeds maximum value"]
      else []
  | none => ["Current resources must be a valid number"]

/-- Required-skill checks: required, length at least 3, length at most 100. -/
def requiredSkillErrors (t : String) : List String :=
  if t = "" then ["Critical expertise is required"]
  else if t.length < 3 then ["Critical expertise must be at least 3 characters"]
  else if t.length > 100 then ["Critical expertise must not exceed 100 characters"]
  else []

/-- All error messages collected by `CrisisValidator.validate_create`, in the
order the source appends them: title, description, severity, urgency,
people affected, available resources, required skill. -/
def crisisErrors (data : CrisisForm) : List String :=
  titleErrors (formStr data.title)
    ++ descriptionErrors (formStr data.description)
    ++ severityErrors (formInt data.severity)
    ++ urgencyErrors (formInt data.urgency)
    ++ peopleAffectedErrors (formInt data.people_affected)
    ++ availableResourcesErrors (formInt data.available_resources)
    ++ requiredSkillErrors (formStr data.required_skill)

/-- The cleaned, typed record returned by `CrisisValidator.validate_create`
on success. -/
structure CleanedCrisis where
  title : String
  description : String
  severity : Int
  urgency : Int
  people_affected : Int
  available_resources : Int
  required_skill : String
deriving DecidableEq, Repr

/-- The record `validate_create` returns when no error was collected.  The
numeric fields use `getD 0`; on the success path every `formInt` is `some`
(a `none` would have contributed a type error), so the default is never
reached. -/
def cleanedOf (data : CrisisForm) : CleanedCrisis :=
  { title := formStr data.title
    description := formStr data.description
    severity := (formInt data.severity).getD 0
    urgency := (formInt data.urgency).getD 0
    people_affected := (formInt data.people_affected).getD 0
    available_resources := (formInt data.available_resources).getD 0
    required_skill := formStr data.required_skill }

/-- Embeds `CrisisValidator.validate_create`: collect every field error; if any was
collected, raise a single `ValidationError` carrying the messages joined by
a semicolon-space delimiter, else return the cleaned record. -/
def validate_create (data : CrisisForm) : Except String CleanedCrisis :=
  if crisisErrors data = [] then Except.ok (cleanedOf data)
  else Except.error (String.intercalate ("; ") (crisisErrors data))

/-- Embeds `VolunteerValidator.VALID_AVAILABILITY`. -/
def VALID_AVAILABILITY : List String := ["Full-time", "Part-time", "Weekends", "On-call"]

/-- Name checks of `VolunteerValidator.validate_register`: required,
length at least 2, length at most 100. -/
def nameErrors (t : String) : List String :=
  if t = "" then ["Full name is required"]
  else if t.length < 2 then ["Full name must be at least 2 characters"]
  else if t.length > 100 then ["Full name must not exceed 100 characters"]
  else []

/-- Skills checks: required, length at least 3, length at most 200. -/
def skillsErrors (t : String) : List String :=
  if t = "" then ["Professional expertise is required"]
  else if t.length < 3 then ["Professional expertise must be at least 3 characters"]
  else if t.length > 200 then ["Professional expertise must not exceed 200 characters"]
  else []

/-- Availability checks: required; a non-empty value must be one of
`VALID_AVAILABILITY`, otherwise the error names the allowed values. -/
def availabilityErrors (t : String) : List String :=
  if t = "" then ["Deployment capacity is required"]
  else if t ∉ VALID_AVAILABILITY then
    ["Deployment capacity must be one of: " ++ String.intercalate (", ") VALID_AVAILABILITY]
  else []

/-- All error messages collected by `VolunteerValidator.validate_register`,
in source order: name, skills, availability. -/
def volunteerErrors (data : VolunteerForm) : List String :=
  nameErrors (formStr data.name)
    ++ skillsErrors (formStr data.skills)
    ++ availabilityErrors (formStr data.availability)

/-- The cleaned record returned by `validate_register` on success. -/
structure CleanedVolunteer where
  name : String
  skills : String
  availability : String
deriving DecidableEq, Repr

/-- The record `validate_register` returns when no error was collected. -/
def cleanedVolOf (data : VolunteerForm) : CleanedVolunteer :=
  { name := formStr data.name
    skills := formStr data.skills
    availability := formStr data.availability }

/-- Embeds `VolunteerValidator.validate_register`: collect every field error; if any
was collected, raise a single `ValidationError` carrying the joined messages,
else return the cleaned record. -/
def validate_register (data : VolunteerForm) : Except String CleanedVolunteer :=
  if volunteerErrors data = [] then Except.ok (cleanedVolOf data)
  else Except.error (String.intercalate ("; ") (volunteerErrors data))

/-- A stored crisis case.  Fields follow the `cases` table of `app.py`
(`models.py` declares the same columns except `status`, which the sqlite
schema defaults to `Pending`); `created_at` is the server-assigned creation
timestamp, modelled as a natural. -/
structure CrisisCase where
  id : Nat
  title : String
  description : String
  severity : Int
  people_affected : Int
  urgency : Int
  available_resources : Int
  required_skill : String
  priority_score : Int
  status : String
  created_at : Nat
deriving DecidableEq, Repr

/-- A stored volunteer row of the layered variant (`models.py`):
`availability` is the validated category string. -/
structure Volunteer where
  id : Nat
  name : String
  skills : String
  availability : String
  registered_at : Nat
deriving DecidableEq, Repr

/-- The persistent store of the layered variant: the two tables plus the
auto-increment counters the database keeps for their primary keys. -/
structure Store where
  cases : List CrisisCase
  volunteers : List Volunteer
  next_case_id : Nat
  next_volunteer_id : Nat
deriving DecidableEq, Repr

/-- A freshly created database: both tables empty, identities starting at 1. -/
def emptyStore : Store := ⟨[], [], 1, 1⟩

/-- Embeds `CrisisService.create_crisis`: compute the priority score from the four
validated numeric fields, build the row (auto-increment id, status default
`Pending`, server-assigned timestamp) and insert it. -/
def create_crisis (v : CleanedCrisis) (now : Nat) (s : Store) : CrisisCase × Store :=
  let priority_score :=
    calculate_priority v.severity v.people_affected v.urgency v.available_resources
  let c : CrisisCase :=
    { id := s.next_case_id
      title := v.title
      description := v.description
      severity := v.severity
      people_affected := v.people_affected
      urgency := v.urgency
      available_resources := v.available_resources
      required_skill := v.required_skill
      priority_score := priority_score
      status := "Pending"
      created_at := now }
  (c, { s with cases := s.cases ++ [c], next_case_id := s.next_case_id + 1 })

/-- Embeds `VolunteerService.register_volunteer`: build the row (auto-increment id,
server-assigned timestamp) from the validated data and insert it. -/
def register_volunteer (v : CleanedVolunteer) (now : Nat) (s : Store) : Volunteer × Store :=
  let w : Volunteer :=
    { id := s.next_volunteer_id
      name := v.name
      skills := v.skills
      availability := v.availability
      registered_at := now }
  (w, { s with volunteers := s.volunteers ++ [w], next_volunteer_id := s.next_volunteer_id + 1 })

/-- Store effect of a POST to `/cases/new` in the validated pipeline
(`app_refactored.py` `new_case`): validation failure raises before
`create_crisis` runs, leaving the store untouched. -/
def new_case_post_store (data : CrisisForm) (now : Nat) (s : Store) : Store :=
  match validate_create data with
  | Except.ok v => (create_crisis v now s).2
  | Except.error _ => s

/-- Store effect of a POST to `/volunteers/register` in the validated
pipeline: validation failure leaves the store untouched. -/
def register_post_store (data : VolunteerForm) (now : Nat) (s : Store) : Store :=
  match validate_register data with
  | Except.ok v => (register_volunteer v now s).2
  | Except.error _ => s

/-- Reachable store states: the empty database, grown only by the two
creation operations — no update or delete operation exists for either
entity. -/
inductive Reachable : Store → Prop
  | init : Reachable emptyStore
  | create_case (v : CleanedCrisis) (now : Nat) (s : Store) :
      Reachable s → Reachable (create_crisis v now s).2
  | register (v : CleanedVolunteer) (now : Nat) (s : Store) :
      Reachable s → Reachable (register_volunteer v now s).2

/-- The ordering of `ORDER BY priority_score DESC, created_at DESC`
(`CrisisService.get_all_cases_sorted` and the `/cases` handler of `app.py`):
`a` may come before `b` when `a` has strictly greater priority, or equal
priority and a timestamp at least as recent. -/
def caseLE (a b : CrisisCase) : Prop :=
  b.priority_score < a.priority_score ∨
    (a.priority_score = b.priority_score ∧ b.created_at ≤ a.created_at)

instance : DecidableRel caseLE := fun a b => by
  unfold caseLE; infer_instance

instance : IsTotal CrisisCase caseLE :=
  ⟨by intro a b; unfold caseLE; omega⟩

instance : IsTrans CrisisCase caseLE :=
  ⟨by intro a b c; unfold caseLE; omega⟩

/-- Embeds `CrisisService.get_all_cases_sorted`: all cases ordered by priority score
descending, then creation timestamp descending. -/
def get_all_cases_sorted (s : Store) : List CrisisCase :=
  List.insertionSort caseLE s.cases

/-- The three numbers returned by `CrisisService.get_dashboard_stats`. -/
structure DashboardStats where
  total_cases : Nat
  high_priority_cases : Nat
  active_volunteers : Nat
deriving DecidableEq, Repr

/-- Embeds `CrisisService.get_dashboard_stats`: total case count, count of cases
with `priority_score >= 20`, and `Volunteer.query.count()` — a bare row
count of the volunteer table, with no availability filter. -/
def get_dashboard_stats (s : Store) : DashboardStats :=
  { total_cases := s.cases.length
    high_priority_cases := (s.cases.filter (fun c => 20 ≤ c.priority_score)).length
    active_volunteers := s.volunteers.length }

/-- A row of the sqlite `volunteers` table (`app.py` schema): `availability`
is an integer flag, `0 = No, 1 = Yes`. -/
structure VolunteerRow where
  id : Nat
  name : String
  skills : String
  availability : Int
  registered_at : Nat
deriving DecidableEq, Repr

/-- The sqlite database of `app.py`: `cases` and `volunteers` tables. -/
structure SqliteStore where
  cases : List CrisisCase
  volunteers : List VolunteerRow
deriving DecidableEq, Repr

/-- The volunteer statistic computed by `services.py`
`get_dashboard_stats`, stated over the sqlite row type so the two dashboard
variants can be compared on the same data: `Volunteer.query.count()` counts
every row and applies no availability filter. -/
def dashboard_active_volunteers (volunteers : List VolunteerRow) : Nat :=
  volunteers.length

/-- Python `round(x)` on an exact rational: round half to even. -/
def py_round (q : ℚ) : Int :=
  let f := ⌊q⌋
  if q - f < 1 / 2 then f
  else if 1 / 2 < q - f then f + 1
  else if f % 2 = 0 then f else f + 1

/-- Python `round(x, 1)`: round to one decimal place, half to even,
modelled over the exact rationals. -/
def py_round1 (q : ℚ) : ℚ := (py_round (q * 10) : ℚ) / 10

/-- The five numbers rendered by the `app.py` dashboard. -/
structure IndexStats where
  total_cases : Nat
  high_priority_cases : Nat
  active_volunteers : Nat
  resolution_rate : ℚ
  volunteer_utilization : ℚ
deriving DecidableEq, Repr

/-- The `index` handler of `app.py`: total cases; cases with
`priority_score >= 20`; volunteers with `availability = 1`; resolution rate
`completed / total * 100` rounded to one decimal, `0` when there are no
cases; volunteer utilization `active cases / active volunteers * 100`
rounded to one decimal and capped at `100`, `0` when there are no active
volunteers. -/
def index_stats (s : SqliteStore) : IndexStats :=
  let total_cases := s.cases.length
  let high_priority_cases := (s.cases.filter (fun c => 20 ≤ c.priority_score)).length
  let active_volunteers := (s.volunteers.filter (fun v => v.availability = 1)).length
  let completed_cases := (s.cases.filter (fun c => c.status = "Completed")).length
  let resolution_rate : ℚ :=
    if 0 < total_cases then py_round1 ((completed_cases : ℚ) / (total_cases : ℚ) * 100)
    else 0
  let active_cases := (s.cases.filter (fun c => c.status = "Active")).length
  let volunteer_utilization : ℚ :=
    if 0 < active_volunteers then
      let u := py_round1 ((active_cases : ℚ) / (active_volunteers : ℚ) * 100)
      if 100 < u then 100 else u
    else 0
  { total_cases := total_cases
    high_priority_cases := high_priority_cases
    active_volunteers := active_volunteers
    resolution_rate := resolution_rate
    volunteer_utilization := volunteer_utilization }

/-- The title field rule is violated: stripped value empty, shorter than 5
or longer than 200 characters. -/
def titleViolation (t : String) : Prop := t = "" ∨ t.length < 5 ∨ 200 < t.length

/-- The description field rule is violated. -/
def descriptionViolation (t : String) : Prop := t = "" ∨ t.length < 20 ∨ 5000 < t.length

/-- The required-skill field rule is violated. -/
def requiredSkillViolation (t : String) : Prop := t = "" ∨ t.length < 3 ∨ 100 < t.length

/-- The name field rule is violated. -/
def nameViolation (t : String) : Prop := t = "" ∨ t.length < 2 ∨ 100 < t.length

/-- The skills field rule is violated. -/
def skillsViolation (t : String) : Prop := t = "" ∨ t.length < 3 ∨ 200 < t.length

/-- The availability field rule is violated: empty or not one of the fixed
enumeration. -/
def availabilityViolation (t : String) : Prop := t = "" ∨ t ∉ VALID_AVAILABILITY

/-- The severity field rule is violated: parse failure or value outside
`[1, 5]`. -/
def severityViolation : Option Int → Prop
  | some n => n < 1 ∨ 5 < n
  | none => True

/-- The urgency field rule is violated: parse failure or value outside
`[1, 5]`. -/
def urgencyViolation : Option Int → Prop
  | some n => n < 1 ∨ 5 < n
  | none => True

/-- The people-affected field rule is violated: parse failure, negative, or
above 10,000,000. -/
def peopleAffectedViolation : Option Int → Prop
  | some n => n < 0 ∨ 10000000 < n
  | none => True

/-- The available-resources field rule is violated: parse failure, negative,
or above 1,000,000. -/
def availableResourcesViolation : Option Int → Prop
  | some n => n < 0 ∨ 1000000 < n
  | none => True

instance (t : String) : Decidable (titleViolation t) :=
  inferInstanceAs (Decidable (t = "" ∨ t.length < 5 ∨ 200 < t.length))

instance (t : String) : Decidable (descriptionViolation t) :=
  inferInstanceAs (Decidable (t = "" ∨ t.length < 20 ∨ 5000 < t.length))

instance (t : String) : Decidable (requiredSkillViolation t) :=
  inferInstanceAs (Decidable (t = "" ∨ t.length < 3 ∨ 100 < t.length))

instance (t : String) : Decidable (nameViolation t) :=
  inferInstanceAs (Decidable (t = "" ∨ t.length < 2 ∨ 100 < t.length))

instance (t : String) : Decidable (skillsViolation t) :=
  inferInstanceAs (Decidable (t = "" ∨ t.length < 3 ∨ 200 < t.length))

instance (t : String) : Decidable (availabilityViolation t) :=
  inferInstanceAs (Decidable (t = "" ∨ t ∉ VALID_AVAILABILITY))

instance (v : Option Int) : Decidable (severityViolation v) :=
  match v with
  | some n => inferInstanceAs (Decidable (n < 1 ∨ 5 < n))
  | none => inferInstanceAs (Decidable True)

instance (v : Option Int) : Decidable (urgencyViolation v) :=
  match v with
  | some n => inferInstanceAs (Decidable (n < 1 ∨ 5 < n))
  | none => inferInstanceAs (Decidable True)

instance (v : Option Int) : Decidable (peopleAffectedViolation v) :=
  match v with
  | some n => inferInstanceAs (Decidable (n < 0 ∨ 10000000 < n))
  | none => inferInstanceAs (Decidable True)

instance (v : Option Int) : Decidable (availableResourcesViolation v) :=
  match v with
  | some n => inferInstanceAs (Decidable (n < 0 ∨ 1000000 < n))
  | none => inferInstanceAs (Decidable True)

/-- A validated sample record (first seed case of `app.py`), used to
instantiate the reachable-state theorems. -/
def sampleClean : CleanedCrisis :=
  { title := "Severe Flooding in District 7"
    description := "Heavy rainfall caused river overflow affecting residential areas."
    severity := 5
    urgency := 5
    people_affected := 850
    available_resources := 12
    required_skill := "Emergency Medicine, Rescue Operations" }

/-- A crisis form whose title is shorter than 5 characters after trimming. -/
def dShortTitle : CrisisForm :=
  { title := some "Ab"
    description := some "Heavy rainfall caused river overflow in town."
    severity := some "3"
    urgency := some "4"
    people_affected := some "100"
    available_resources := some "5"
    required_skill := some "Rescue Operations" }

/-- A registration form whose availability is a non-empty value outside the
fixed enumeration. -/
def wBadAvailability : VolunteerForm :=
  { name := some "John Smith"
    skills := some "Logistics and supply"
    availability := some "Sometimes" }

/-- A registration form whose availability is the empty string — also a
value not in the fixed enumeration. -/
def wEmptyAvailability : VolunteerForm :=
  { name := some "John Smith"
    skills := some "Logistics and supply"
    availability := some "" }

/-- A crisis form meeting every condition of claim C5 as stated — in
particular a non-empty required skill — whose skill is nevertheless shorter
than the 3 characters the validator demands. -/
def dShortSkill : CrisisForm :=
  { title := some "Flood in district seven"
    description := some "Heavy rainfall caused river overflow in town."
    severity := some "3"
    urgency := some "4"
    people_affected := some "100"
    available_resources := some "5"
    required_skill := some "ab" }

/-- A fully valid crisis form. -/
def dValid : CrisisForm :=
  { title := some "Flood in district seven"
    description := some "Heavy rainfall caused river overflow in town."
    severity := some "3"
    urgency := some "4"
    people_affected := some "100"
    available_resources := some "5"
    required_skill := some "Rescue Operations" }

/-- A crisis form that omits the `people_affected` and `available_resources`
keys and is otherwise valid. -/
def dNoCounts : CrisisForm :=
  { title := some "Flood in district seven"
    description := some "Heavy rainfall caused river overflow in town."
    severity := some "3"
    urgency := some "4"
    people_affected := none
    available_resources := none
    required_skill := some "Rescue Operations" }

/-- A stored sample case with a given identity and status. -/
def sampleCase (i : Nat) (st : String) : CrisisCase :=
  { id := i
    title := "Sample case"
    description := "A sample description of the situation."
    severity := 3
    people_affected := 100
    urgency := 3
    available_resources := 5
    required_skill := "Logistics"
    priority_score := calculate_priority 3 100 3 5
    status := st
    created_at := i }

/-- A store of ten cases of which exactly three are completed. -/
def tenCaseStore : SqliteStore :=
  { cases := [sampleCase 1 "Completed", sampleCase 2 "Completed", sampleCase 3 "Completed",
      sampleCase 4 "Pending", sampleCase 5 "Pending", sampleCase 6 "Active",
      sampleCase 7 "Active", sampleCase 8 "Pending", sampleCase 9 "Pending",
      sampleCase 10 "Pending"]
    volunteers := [] }

/-- A volunteer row flagged available (`availability = 1`). -/
def availableVol : VolunteerRow :=
  { id := 1
    name := "Dr. Sarah Chen"
    skills := "Emergency Medicine, Trauma Care, Triage"
    availability := 1
    registered_at := 0 }

/-- A volunteer row flagged unavailable (`availability = 0`), as in the seed
data of `app.py`. -/
def unavailableVol : VolunteerRow :=
  { id := 9
    name := "Dr. Lisa Anderson"
    skills := "Public Health, Sanitation, Water Quality"
    availability := 0
    registered_at := 0 }

/-- Claim C1: over severity and urgency in `[1, 5]` and non-negative
people-affected and available-resources counts, the priority calculator
returns exactly `severity*3 + people_affected*2 + urgency*4 -
available_resources*2`; the example input `(5, 850, 5, 12)` yields `1711`;
the result is not clamped and can be negative. -/
theorem calculate_priority_formula :
    (∀ severity people_affected urgency available_resources : Int,
        1 ≤ severity → severity ≤ 5 → 0 ≤ people_affected →
        1 ≤ urgency → urgency ≤ 5 → 0 ≤ available_resources →
        calculate_priority severity people_affected urgency available_resources =
          severity * 3 + people_affected * 2 + urgency * 4 - available_resources * 2) ∧
    calculate_priority 5 850 5 12 = 1711 ∧
    calculate_priority 1 0 1 100 < 0 := by
  refine ⟨fun s p u r _ _ _ _ _ _ => rfl, by decide, by decide⟩

/-- Witness for C1: the hypotheses hold at the example input `(5, 850, 5, 12)`
and the formula instance follows from the theorem. -/
theorem calculate_priority_formula_witness :
    calculate_priority 5 850 5 12 = 5 * 3 + 850 * 2 + 5 * 4 - 12 * 2 :=
  calculate_priority_formula.1 5 850 5 12 (by decide) (by decide) (by decide)
    (by decide) (by decide) (by decide)

theorem strChainErrors_length (t : String) (lo hi : Nat) (m1 m2 m3 : String) :
    (if t = "" then [m1]
      else if t.length < lo then [m2]
      else if t.length > hi then [m3]
      else []).length
      = if t = "" ∨ t.length < lo ∨ hi < t.length then 1 else 0 := by
  by_cases h1 : t = ""
  · rw [if_pos h1, if_pos (Or.inl h1)]; rfl
  · rw [if_neg h1]
    by_cases h2 : t.length < lo
    · rw [if_pos h2, if_pos (Or.inr (Or.inl h2))]; rfl
    · rw [if_neg h2]
      by_cases h3 : t.length > hi
      · rw [if_pos h3, if_pos (Or.inr (Or.inr h3))]; rfl
      · rw [if_neg h3, if_neg (fun h => h.elim h1 (fun g => g.elim h2 h3))]; rfl

theorem rangeChainErrors_length (n lo hi : Int) (m : String) :
    (if ¬ (lo ≤ n ∧ n ≤ hi) then [m] else []).length
      = if n < lo ∨ hi < n then 1 else 0 := by
  by_cases h : lo ≤ n ∧ n ≤ hi
  · rw [if_neg (not_not_intro h), if_neg (by omega)]; rfl
  · rw [if_pos h, if_pos (by omega)]; rfl

theorem boundChainErrors_length (n hi : Int) (m1 m2 : String) :
    (if n < 0 then [m1] else if n > hi then [m2] else []).length
      = if n < 0 ∨ hi < n then 1 else 0 := by
  by_cases h1 : n < 0
  · rw [if_pos h1, if_pos (Or.inl h1)]; rfl
  · rw [if_neg h1]
    by_cases h2 : n > hi
    · rw [if_pos h2, if_pos (Or.inr h2)]; rfl
    · rw [if_neg h2, if_neg (by omega)]; rfl

theorem titleErrors_length (t : String) :
    (titleErrors t).length = if titleViolation t then 1 else 0 :=
  strChainErrors_length t 5 200 _ _ _

theorem descriptionErrors_length (t : String) :
    (descriptionErrors t).length = if descriptionViolation t then 1 else 0 :=
  strChainErrors_length t 20 5000 _ _ _

theorem requiredSkillErrors_length (t : String) :
    (requiredSkillErrors t).length = if requiredSkillViolation t then 1 else 0 :=
  strChainErrors_length t 3 100 _ _ _

theorem nameErrors_length (t : String) :
    (nameErrors t).length = if nameViolation t then 1 else 0 :=
  strChainErrors_length t 2 100 _ _ _

theorem skillsErrors_length (t : String) :
    (skillsErrors t).length = if skillsViolation t then 1 else 0 :=
  strChainErrors_length t 3 200 _ _ _

theorem availabilityErrors_length (t : String) :
    (availabilityErrors t).length = if availabilityViolation t then 1 else 0 := by
  unfold availabilityErrors availabilityViolation
  by_cases h1 : t = ""
  · rw [if_pos h1, if_pos (Or.inl h1)]; rfl
  · rw [if_neg h1]
    by_cases h2 : t ∉ VALID_AVAILABILITY
    · rw [if_pos h2, if_pos (Or.inr h2)]; rfl
    · rw [if_neg h2, if_neg (fun h => h.elim h1 h2)]; rfl

theorem severityErrors_length (v : Option Int) :
    (severityErrors v).length = if severityViolation v then 1 else 0 := by
  cases v with
  | none => simp [severityErrors, severityViolation]
  | some n => exact rangeChainErrors_length n 1 5 _

theorem urgencyErrors_length (v : Option Int) :
    (urgencyErrors v).length = if urgencyViolation v then 1 else 0 := by
  cases v with
  | none => simp [urgencyErrors, urgencyViolation]
  | some n => exact rangeChainErrors_length n 1 5 _

theorem peopleAffectedErrors_length (v : Option Int) :
    (peopleAffectedErrors v).length = if peopleAffectedViolation v then 1 else 0 := by
  cases v with
  | none => simp [peopleAffectedErrors, peopleAffectedViolation]
  | some n => exact boundChainErrors_length n 10000000 _ _

theorem availableResourcesErrors_length (v : Option Int) :
    (availableResourcesErrors v).length = if availableResourcesViolation v then 1 else 0 := by
  cases v with
  | none => simp [availableResourcesErrors, availableResourcesViolation]
  | some n => exact boundChainErrors_length n 1000000 _ _

theorem titleErrors_eq_nil (t : String) : titleErrors t = [] ↔ ¬ titleViolation t := by
  rw [← List.length_eq_zero, titleErrors_length]; split_ifs <;> simp_all

theorem descriptionErrors_eq_nil (t : String) :
    descriptionErrors t = [] ↔ ¬ descriptionViolation t := by
  rw [← List.length_eq_zero, descriptionErrors_length]; split_ifs <;> simp_all

theorem requiredSkillErrors_eq_nil (t : String) :
    requiredSkillErrors t = [] ↔ ¬ requiredSkillViolation t := by
  rw [← List.length_eq_zero, requiredSkillErrors_length]; split_ifs <;> simp_all

theorem nameErrors_eq_nil (t : String) : nameErrors t = [] ↔ ¬ nameViolation t := by
  rw [← List.length_eq_zero, nameErrors_length]; split_ifs <;> simp_all

theorem skillsErrors_eq_nil (t : String) : skillsErrors t = [] ↔ ¬ skillsViolation t := by
  rw [← List.length_eq_zero, skillsErrors_length]; split_ifs <;> simp_all

theorem availabilityErrors_eq_nil (t : String) :
    availabilityErrors t = [] ↔ ¬ availabilityViolation t := by
  rw [← List.length_eq_zero, availabilityErrors_length]; split_ifs <;> simp_all

theorem severityErrors_eq_nil (v : Option Int) :
    severityErrors v = [] ↔ ¬ severityViolation v := by
  rw [← List.length_eq_zero, severityErrors_length]; split_ifs <;> simp_all

theorem urgencyErrors_eq_nil (v : Option Int) :
    urgencyErrors v = [] ↔ ¬ urgencyViolation v := by
  rw [← List.length_eq_zero, urgencyErrors_length]; split_ifs <;> simp_all

theorem peopleAffectedErrors_eq_nil (v : Option Int) :
    peopleAffectedErrors v = [] ↔ ¬ peopleAffectedViolation v := by
  rw [← List.length_eq_zero, peopleAffectedErrors_length]; split_ifs <;> simp_all

theorem availableResourcesErrors_eq_nil (v : Option Int) :
    availableResourcesErrors v = [] ↔ ¬ availableResourcesViolation v := by
  rw [← List.length_eq_zero, availableResourcesErrors_length]; split_ifs <;> simp_all

theorem crisisErrors_eq_nil (d : CrisisForm) :
    crisisErrors d = [] ↔
      ¬ titleViolation (formStr d.title) ∧
      ¬ descriptionViolation (formStr d.description) ∧
      ¬ severityViolation (formInt d.severity) ∧
      ¬ urgencyViolation (formInt d.urgency) ∧
      ¬ peopleAffectedViolation (formInt d.people_affected) ∧
      ¬ availableResourcesViolation (formInt d.available_resources) ∧
      ¬ requiredSkillViolation (formStr d.required_skill) := by
  simp [crisisErrors, List.append_eq_nil, titleErrors_eq_nil, descriptionErrors_eq_nil,
    severityErrors_eq_nil, urgencyErrors_eq_nil, peopleAffectedErrors_eq_nil,
    availableResourcesErrors_eq_nil, requiredSkillErrors_eq_nil, and_assoc]

theorem volunteerErrors_eq_nil (d : VolunteerForm) :
    volunteerErrors d = [] ↔
      ¬ nameViolation (formStr d.name) ∧
      ¬ skillsViolation (formStr d.skills) ∧
      ¬ availabilityViolation (formStr d.availability) := by
  simp [volunteerErrors, List.append_eq_nil, nameErrors_eq_nil, skillsErrors_eq_nil,
    availabilityErrors_eq_nil, and_assoc]

theorem validate_create_error_iff (d : CrisisForm) :
    (∃ m, validate_create d = Except.error m) ↔ crisisErrors d ≠ [] := by
  unfold validate_create
  split_ifs with h <;> simp [h]

theorem validate_create_ok_iff (d : CrisisForm) :
    (∃ c, validate_create d = Except.ok c) ↔ crisisErrors d = [] := by
  unfold validate_create
  split_ifs with h <;> simp [h]

theorem validate_register_error_iff (d : VolunteerForm) :
    (∃ m, validate_register d = Except.error m) ↔ volunteerErrors d ≠ [] := by
  unfold validate_register
  split_ifs with h <;> simp [h]

theorem validate_register_ok_iff (d : VolunteerForm) :
    (∃ c, validate_register d = Except.ok c) ↔ volunteerErrors d = [] := by
  unfold validate_register
  split_ifs with h <;> simp [h]

theorem validate_create_error_of_ne_nil (d : CrisisForm) (h : crisisErrors d ≠ []) :
    validate_create d = Except.error (String.intercalate ("; ") (crisisErrors d)) := by
  unfold validate_create
  split_ifs with h2
  · exact absurd h2 h
  · rfl

theorem validate_register_error_of_ne_nil (d : VolunteerForm) (h : volunteerErrors d ≠ []) :
    validate_register d = Except.error (String.intercalate ("; ") (volunteerErrors d)) := by
  unfold validate_register
  split_ifs with h2
  · exact absurd h2 h
  · rfl

theorem crisisErrors_length (d : CrisisForm) :
    (crisisErrors d).length =
      (if titleViolation (formStr d.title) then 1 else 0) +
      (if descriptionViolation (formStr d.description) then 1 else 0) +
      (if severityViolation (formInt d.severity) then 1 else 0) +
      (if urgencyViolation (formInt d.urgency) then 1 else 0) +
      (if peopleAffectedViolation (formInt d.people_affected) then 1 else 0) +
      (if availableResourcesViolation (formInt d.available_resources) then 1 else 0) +
      (if requiredSkillViolation (formStr d.required_skill) then 1 else 0) := by
  simp only [crisisErrors, List.length_append, titleErrors_length, descriptionErrors_length,
    severityErrors_length, urgencyErrors_length, peopleAffectedErrors_length,
    availableResourcesErrors_length, requiredSkillErrors_length]

theorem volunteerErrors_length (d : VolunteerForm) :
    (volunteerErrors d).length =
      (if nameViolation (formStr d.name) then 1 else 0) +
      (if skillsViolation (formStr d.skills) then 1 else 0) +
      (if availabilityViolation (formStr d.availability) then 1 else 0) := by
  simp only [volunteerErrors, List.length_append, nameErrors_length, skillsErrors_length,
    availabilityErrors_length]

/-- Claim C3: each validator collects every field error without
short-circuiting — rejection happens if and only if at least one field rule
is violated, each violated field contributes exactly one message, the raised
error is the single string of all messages joined by the delimiter, and a
cleaned record is returned exactly when no field is violated. -/
theorem validators_all_or_nothing (d : CrisisForm) (w : VolunteerForm) :
    ((∃ m, validate_create d = Except.error m) ↔
      titleViolation (formStr d.title) ∨ descriptionViolation (formStr d.description) ∨
      severityViolation (formInt d.severity) ∨ urgencyViolation (formInt d.urgency) ∨
      peopleAffectedViolation (formInt d.people_affected) ∨
      availableResourcesViolation (formInt d.available_resources) ∨
      requiredSkillViolation (formStr d.required_skill)) ∧
    (crisisErrors d ≠ [] →
      validate_create d = Except.error (String.intercalate ("; ") (crisisErrors d))) ∧
    ((∃ c, validate_create d = Except.ok c) ↔ crisisErrors d = []) ∧
    ((crisisErrors d).length =
      (if titleViolation (formStr d.title) then 1 else 0) +
      (if descriptionViolation (formStr d.description) then 1 else 0) +
      (if severityViolation (formInt d.severity) then 1 else 0) +
      (if urgencyViolation (formInt d.urgency) then 1 else 0) +
      (if peopleAffectedViolation (formInt d.people_affected) then 1 else 0) +
      (if availableResourcesViolation (formInt d.available_resources) then 1 else 0) +
      (if requiredSkillViolation (formStr d.required_skill) then 1 else 0)) ∧
    ((∃ m, validate_register w = Except.error m) ↔
      nameViolation (formStr w.name) ∨ skillsViolation (formStr w.skills) ∨
      availabilityViolation (formStr w.availability)) ∧
    (volunteerErrors w ≠ [] →
      validate_register w = Except.error (String.intercalate ("; ") (volunteerErrors w))) ∧
    ((∃ c, validate_register w = Except.ok c) ↔ volunteerErrors w = []) ∧
    ((volunteerErrors w).length =
      (if nameViolation (formStr w.name) then 1 else 0) +
      (if skillsViolation (formStr w.skills) then 1 else 0) +
      (if availabilityViolation (formStr w.availability) then 1 else 0)) := by
  refine ⟨?_, validate_create_error_of_ne_nil d, validate_create_ok_iff d,
    crisisErrors_length d, ?_, validate_register_error_of_ne_nil w,
    validate_register_ok_iff w, volunteerErrors_length w⟩
  · rw [validate_create_error_iff, Ne, crisisErrors_eq_nil]
    simp only [not_and_or, not_not]
  · rw [validate_register_error_iff, Ne, volunteerErrors_eq_nil]
    simp only [not_and_or, not_not]

/-- Witness for C3: the all-absent crisis form is rejected with the joined
message list, and a fully valid registration form is accepted. -/
theorem validators_all_or_nothing_witness :
    validate_create (CrisisForm.mk none none none none none none none) =
      Except.error
        (String.intercalate ("; ")
          (crisisErrors (CrisisForm.mk none none none none none none none))) ∧
    (∃ c, validate_register
        (VolunteerForm.mk (some "John Smith") (some "Logistics and supply") (some "Weekends")) =
      Except.ok c) :=
  ⟨(validators_all_or_nothing (CrisisForm.mk none none none none none none none)
      (VolunteerForm.mk none none none)).2.1 (by decide),
   (validators_all_or_nothing (CrisisForm.mk none none none none none none none)
      (VolunteerForm.mk (some "John Smith") (some "Logistics and supply")
        (some "Weekends"))).2.2.2.2.2.2.1.mpr (by decide)⟩

/-- Claim C2: in every reachable store state — states grown from the empty
database by the two creation operations, there being no update or delete —
every stored case's `priority_score` equals the priority formula applied to
its four numeric fields. -/
theorem priority_score_invariant :
    ∀ s : Store, Reachable s → ∀ c, c ∈ s.cases →
      c.priority_score =
        calculate_priority c.severity c.people_affected c.urgency c.available_resources := by
  intro s hs
  induction hs with
  | init =>
      intro c hc
      simp [emptyStore] at hc
  | create_case v now s' _ ih =>
      intro c hc
      simp only [create_crisis, List.mem_append, List.mem_singleton] at hc
      rcases hc with hc | rfl
      · exact ih c hc
      · rfl
  | register v now s' _ ih =>
      intro c hc
      simp only [register_volunteer] at hc
      exact ih c hc

/-- Witness for C2: in the store reached by one creation from the empty
database, the inserted case satisfies the priority formula. -/
theorem priority_score_invariant_witness :
    (create_crisis sampleClean 7 emptyStore).1.priority_score =
      calculate_priority (create_crisis sampleClean 7 emptyStore).1.severity
        (create_crisis sampleClean 7 emptyStore).1.people_affected
        (create_crisis sampleClean 7 emptyStore).1.urgency
        (create_crisis sampleClean 7 emptyStore).1.available_resources :=
  priority_score_invariant _ (Reachable.create_case sampleClean 7 emptyStore Reachable.init)
    _ (by simp [create_crisis, emptyStore])

theorem new_case_post_store_of_errors (d : CrisisForm) (now : Nat) (s : Store)
    (h : crisisErrors d ≠ []) : new_case_post_store d now s = s := by
  unfold new_case_post_store
  rw [validate_create_error_of_ne_nil d h]

theorem register_post_store_of_errors (d : VolunteerForm) (now : Nat) (s : Store)
    (h : volunteerErrors d ≠ []) : register_post_store d now s = s := by
  unfold register_post_store
  rw [validate_register_error_of_ne_nil d h]

/-- Counterexample to claim C4 as stated: the empty string is an
availability value not in the fixed enumeration, yet the error raised for it
is the required-field message, which does not name the allowed values. -/
theorem validation_rejections_cex :
    formStr wEmptyAvailability.availability ∉ VALID_AVAILABILITY ∧
    validate_register wEmptyAvailability =
      Except.error ("Deployment capacity is required") ∧
    ("Deployment capacity must be one of: " ++ String.intercalate (", ") VALID_AVAILABILITY) ∉
      volunteerErrors wEmptyAvailability ∧
    ("Deployment capacity is required") ≠
      ("Deployment capacity must be one of: " ++
        String.intercalate (", ") VALID_AVAILABILITY) := by
  refine ⟨by decide, by rfl, by decide, by decide⟩

/-- Claim C4 (amended): validation rejects — with a non-empty collected
error list, the single joined error, and no record created — a title shorter
than 5 characters after trimming, a description shorter than 20 characters,
a severity outside `[1, 5]`, a people-affected count negative or above
10,000,000, and an availability value outside the fixed enumeration; for a
NON-EMPTY availability value outside the enumeration the error names the
allowed values (the empty string instead yields the required-field
message). -/
theorem validation_rejections (d : CrisisForm) (w : VolunteerForm) (now : Nat) (s : Store) :
    ((formStr d.title).length < 5 →
      crisisErrors d ≠ [] ∧
      validate_create d = Except.error (String.intercalate ("; ") (crisisErrors d)) ∧
      new_case_post_store d now s = s) ∧
    ((formStr d.description).length < 20 →
      crisisErrors d ≠ [] ∧
      validate_create d = Except.error (String.intercalate ("; ") (crisisErrors d)) ∧
      new_case_post_store d now s = s) ∧
    (∀ n, formInt d.severity = some n → n < 1 ∨ 5 < n →
      crisisErrors d ≠ [] ∧
      validate_create d = Except.error (String.intercalate ("; ") (crisisErrors d)) ∧
      new_case_post_store d now s = s) ∧
    (∀ n, formInt d.people_affected = some n → n < 0 ∨ 10000000 < n →
      crisisErrors d ≠ [] ∧
      validate_create d = Except.error (String.intercalate ("; ") (crisisErrors d)) ∧
      new_case_post_store d now s = s) ∧
    (formStr w.availability ∉ VALID_AVAILABILITY →
      volunteerErrors w ≠ [] ∧
      validate_register w = Except.error (String.intercalate ("; ") (volunteerErrors w)) ∧
      register_post_store w now s = s) ∧
    (formStr w.availability ∉ VALID_AVAILABILITY → formStr w.availability ≠ "" →
      ("Deployment capacity must be one of: " ++ String.intercalate (", ") VALID_AVAILABILITY) ∈
        volunteerErrors w) := by
  have pack : crisisErrors d ≠ [] →
      crisisErrors d ≠ [] ∧
      validate_create d = Except.error (String.intercalate ("; ") (crisisErrors d)) ∧
      new_case_post_store d now s = s :=
    fun hv => ⟨hv, validate_create_error_of_ne_nil d hv, new_case_post_store_of_errors d now s hv⟩
  refine ⟨fun h => pack ?_, fun h => pack ?_, fun n hn hout => pack ?_, fun n hn hout => pack ?_,
    fun h => ?_, fun h hne => ?_⟩
  · rw [Ne, crisisErrors_eq_nil]
    intro hall
    exact hall.1 (Or.inr (Or.inl h))
  · rw [Ne, crisisErrors_eq_nil]
    intro hall
    exact hall.2.1 (Or.inr (Or.inl h))
  · rw [Ne, crisisErrors_eq_nil]
    intro hall
    exact hall.2.2.1 (by rw [hn]; exact hout)
  · rw [Ne, crisisErrors_eq_nil]
    intro hall
    exact hall.2.2.2.2.1 (by rw [hn]; exact hout)
  · have hv : volunteerErrors w ≠ [] := by
      rw [Ne, volunteerErrors_eq_nil]
      intro hall
      exact hall.2.2 (Or.inr h)
    exact ⟨hv, validate_register_error_of_ne_nil w hv, register_post_store_of_errors w now s hv⟩
  · have ha : availabilityErrors (formStr w.availability) =
        ["Deployment capacity must be one of: " ++ String.intercalate (", ") VALID_AVAILABILITY] := by
      unfold availabilityErrors
      rw [if_neg hne, if_pos h]
    simp [volunteerErrors, ha]

/-- Witness for C4 (amended): the short-title form is rejected without
touching the store, and the out-of-enumeration availability value produces
the message naming the allowed values. -/
theorem validation_rejections_witness :
    (crisisErrors dShortTitle ≠ [] ∧
      validate_create dShortTitle =
        Except.error (String.intercalate ("; ") (crisisErrors dShortTitle)) ∧
      new_case_post_store dShortTitle 0 emptyStore = emptyStore) ∧
    ("Deployment capacity must be one of: " ++ String.intercalate (", ") VALID_AVAILABILITY) ∈
      volunteerErrors wBadAvailability :=
  ⟨(validation_rejections dShortTitle wBadAvailability 0 emptyStore).1 (by decide),
   (validation_rejections dShortTitle wBadAvailability 0 emptyStore).2.2.2.2.2
      (by decide) (by decide)⟩

theorem validate_create_ok_of_valid (d : CrisisForm)
    (h1 : 5 ≤ (formStr d.title).length) (h2 : (formStr d.title).length ≤ 200)
    (h3 : 20 ≤ (formStr d.description).length) (h4 : (formStr d.description).length ≤ 5000)
    (h5 : ∃ n, formInt d.severity = some n ∧ 1 ≤ n ∧ n ≤ 5)
    (h6 : ∃ n, formInt d.urgency = some n ∧ 1 ≤ n ∧ n ≤ 5)
    (h7 : ∃ n, formInt d.people_affected = some n ∧ 0 ≤ n ∧ n ≤ 10000000)
    (h8 : ∃ n, formInt d.available_resources = some n ∧ 0 ≤ n ∧ n ≤ 1000000)
    (h9 : 3 ≤ (formStr d.required_skill).length)
    (h10 : (formStr d.required_skill).length ≤ 100) :
    validate_create d = Except.ok (cleanedOf d) := by
  obtain ⟨ns, hns, hns1, hns2⟩ := h5
  obtain ⟨nu, hnu, hnu1, hnu2⟩ := h6
  obtain ⟨np, hnp, hnp1, hnp2⟩ := h7
  obtain ⟨nr, hnr, hnr1, hnr2⟩ := h8
  have hnil : crisisErrors d = [] := by
    rw [crisisErrors_eq_nil]
    refine ⟨?_, ?_, ?_, ?_, ?_, ?_, ?_⟩
    · rintro (h | h | h)
      · rw [h] at h1; simp at h1
      · omega
      · omega
    · rintro (h | h | h)
      · rw [h] at h3; simp at h3
      · omega
      · omega
    · rw [hns]; intro h; simp only [severityViolation] at h; omega
    · rw [hnu]; intro h; simp only [urgencyViolation] at h; omega
    · rw [hnp]; intro h; simp only [peopleAffectedViolation] at h; omega
    · rw [hnr]; intro h; simp only [availableResourcesViolation] at h; omega
    · rintro (h | h | h)
      · rw [h] at h9; simp at h9
      · omega
      · omega
  unfold validate_create
  rw [if_pos hnil]

/-- Counterexample to claim C5 as stated: a submission meeting every listed
condition — title of at least 5 characters, description of at least 20,
severity and urgency in `[1, 5]`, bounded non-negative counts, and a
NON-EMPTY required skill — is nevertheless rejected, creating no record,
because its two-character skill is below the validator's 3-character
minimum. -/
theorem valid_submission_creates_cex :
    5 ≤ (formStr dShortSkill.title).length ∧
    20 ≤ (formStr dShortSkill.description).length ∧
    formInt dShortSkill.severity = some 3 ∧
    formInt dShortSkill.urgency = some 4 ∧
    formInt dShortSkill.people_affected = some 100 ∧
    formInt dShortSkill.available_resources = some 5 ∧
    formStr dShortSkill.required_skill ≠ "" ∧
    validate_create dShortSkill =
      Except.error ("Critical expertise must be at least 3 characters") ∧
    new_case_post_store dShortSkill 0 emptyStore = emptyStore := by
  refine ⟨by decide, by decide, by decide, by decide, by decide, by decide, by decide,
    by rfl, by rfl⟩

/-- Claim C5 (amended): a crisis submission whose trimmed title has length
in `[5, 200]`, description in `[20, 5000]`, severity and urgency parsing to
integers in `[1, 5]`, people affected in `[0, 10000000]`, available
resources in `[0, 1000000]`, and trimmed required skill of length in
`[3, 100]` (not merely non-empty) passes validation, and the creation
operation appends exactly one new record, whose priority score is the
formula value and whose status is the default `Pending`. -/
theorem valid_submission_creates (d : CrisisForm) (now : Nat) (s : Store)
    (h1 : 5 ≤ (formStr d.title).length) (h2 : (formStr d.title).length ≤ 200)
    (h3 : 20 ≤ (formStr d.description).length) (h4 : (formStr d.description).length ≤ 5000)
    (h5 : ∃ n, formInt d.severity = some n ∧ 1 ≤ n ∧ n ≤ 5)
    (h6 : ∃ n, formInt d.urgency = some n ∧ 1 ≤ n ∧ n ≤ 5)
    (h7 : ∃ n, formInt d.people_affected = some n ∧ 0 ≤ n ∧ n ≤ 10000000)
    (h8 : ∃ n, formInt d.available_resources = some n ∧ 0 ≤ n ∧ n ≤ 1000000)
    (h9 : 3 ≤ (formStr d.required_skill).length)
    (h10 : (formStr d.required_skill).length ≤ 100) :
    validate_create d = Except.ok (cleanedOf d) ∧
    (new_case_post_store d now s).cases = s.cases ++ [(create_crisis (cleanedOf d) now s).1] ∧
    (create_crisis (cleanedOf d) now s).1.priority_score =
      calculate_priority (cleanedOf d).severity (cleanedOf d).people_affected
        (cleanedOf d).urgency (cleanedOf d).available_resources ∧
    (create_crisis (cleanedOf d) now s).1.status = "Pending" := by
  have hok := validate_create_ok_of_valid d h1 h2 h3 h4 h5 h6 h7 h8 h9 h10
  refine ⟨hok, ?_, rfl, rfl⟩
  unfold new_case_post_store
  rw [hok]
  rfl

/-- Witness for C5 (amended): a concrete fully valid submission is accepted
and appended as a single `Pending` record with the formula score. -/
theorem valid_submission_creates_witness :
    validate_create dValid = Except.ok (cleanedOf dValid) ∧
    (new_case_post_store dValid 3 emptyStore).cases =
      emptyStore.cases ++ [(create_crisis (cleanedOf dValid) 3 emptyStore).1] ∧
    (create_crisis (cleanedOf dValid) 3 emptyStore).1.priority_score =
      calculate_priority (cleanedOf dValid).severity (cleanedOf dValid).people_affected
        (cleanedOf dValid).urgency (cleanedOf dValid).available_resources ∧
    (create_crisis (cleanedOf dValid) 3 emptyStore).1.status = "Pending" :=
  valid_submission_creates dValid 3 emptyStore (by decide) (by decide) (by decide) (by decide)
    ⟨3, by decide⟩ ⟨4, by decide⟩ ⟨100, by decide⟩ ⟨5, by decide⟩ (by decide) (by decide)

/-- Claim C6: for any set of stored cases, the case list is a permutation of
the store that is non-increasing in priority score, and among equal priority
scores non-increasing in creation timestamp (newer first). -/
theorem cases_list_sorted (s : Store) :
    List.Pairwise (fun a b =>
        b.priority_score ≤ a.priority_score ∧
          (a.priority_score = b.priority_score → b.created_at ≤ a.created_at))
      (get_all_cases_sorted s) ∧
    (get_all_cases_sorted s).Perm s.cases := by
  constructor
  · exact List.Pairwise.imp
      (fun hab => by unfold caseLE at hab; exact ⟨by omega, fun h => by omega⟩)
      (List.sorted_insertionSort caseLE s.cases)
  · exact List.perm_insertionSort caseLE s.cases

/-- Claim C7: the dashboard resolution rate is `0` when there are no cases
(no division by zero), equals `completed / total * 100` rounded to one
decimal place otherwise, and is exactly `30` for 10 cases of which 3 are
completed. -/
theorem resolution_rate_spec :
    (∀ s : SqliteStore, s.cases = [] → (index_stats s).resolution_rate = 0) ∧
    (∀ s : SqliteStore, s.cases ≠ [] →
      (index_stats s).resolution_rate =
        py_round1 (((s.cases.filter (fun c => c.status = "Completed")).length : ℚ) /
          ((s.cases.length : ℚ)) * 100)) ∧
    (∀ s : SqliteStore, s.cases.length = 10 →
      (s.cases.filter (fun c => c.status = "Completed")).length = 3 →
      (index_stats s).resolution_rate = 30) := by
  refine ⟨?_, ?_, ?_⟩
  · intro s h
    simp [index_stats, h]
  · intro s h
    simp [index_stats, List.length_pos.mpr h]
  · intro s h1 h2
    have h : s.cases ≠ [] := by
      intro he
      rw [he] at h1
      simp at h1
    rw [(by
      simp [index_stats, List.length_pos.mpr h] :
        (index_stats s).resolution_rate =
          py_round1 (((s.cases.filter (fun c => c.status = "Completed")).length : ℚ) /
            ((s.cases.length : ℚ)) * 100)), h1, h2]
    norm_num [py_round1, py_round]

/-- Witness for C7: a concrete store of 10 cases with 3 completed has
resolution rate exactly 30. -/
theorem resolution_rate_spec_witness :
    (index_stats tenCaseStore).resolution_rate = 30 :=
  resolution_rate_spec.2.2 tenCaseStore (by decide) (by decide)

/-- Counterexample to claim C8 as stated: the volunteer statistic computed
by `get_dashboard_stats` (`services.py`) is a bare row count with no
availability filter, so on a table holding one available and one unavailable
volunteer it returns 2 while the number of available volunteers is 1. -/
theorem dashboard_stats_cex :
    dashboard_active_volunteers [availableVol, unavailableVol] = 2 ∧
    ([availableVol, unavailableVol].countP (fun v => v.availability = 1)) = 1 ∧
    dashboard_active_volunteers [availableVol, unavailableVol] ≠
      ([availableVol, unavailableVol].countP (fun v => v.availability = 1)) := by
  refine ⟨by decide, by decide, by decide⟩

/-- Claim C8 (amended): the sqlite dashboard (`app.py` `index`) counts only
volunteers with `availability = 1`, and both dashboard variants count as
high-priority exactly the cases with `priority_score >= 20`; the layered
variant (`services.py` `get_dashboard_stats`), however, reports the total
number of registered volunteers, applying no availability filter. -/
theorem dashboard_stats_amended (t : SqliteStore) (s : Store) :
    (index_stats t).active_volunteers = t.volunteers.countP (fun v => v.availability = 1) ∧
    (index_stats t).high_priority_cases = t.cases.countP (fun c => 20 ≤ c.priority_score) ∧
    (get_dashboard_stats s).high_priority_cases =
      s.cases.countP (fun c => 20 ≤ c.priority_score) ∧
    (get_dashboard_stats s).total_cases = s.cases.length ∧
    (get_dashboard_stats s).active_volunteers = s.volunteers.length ∧
    dashboard_active_volunteers t.volunteers = t.volunteers.length := by
  refine ⟨?_, ?_, ?_, rfl, rfl, rfl⟩
  · simp [index_stats, List.countP_eq_length_filter]
  · simp [index_stats, List.countP_eq_length_filter]
  · simp [get_dashboard_stats, List.countP_eq_length_filter]

/-- Claim C9: creation is not idempotent — running a creation twice with
identical validated data yields two distinct records with distinct
identities, each carrying the timestamp of its own insertion, and both are
appended to the store (no deduplication); likewise for volunteer
registration. -/
theorem creation_not_idempotent (v : CleanedCrisis) (w : CleanedVolunteer)
    (t1 t2 : Nat) (s : Store) :
    (create_crisis v t1 s).1.id ≠ (create_crisis v t2 (create_crisis v t1 s).2).1.id ∧
    (create_crisis v t1 s).1 ≠ (create_crisis v t2 (create_crisis v t1 s).2).1 ∧
    (create_crisis v t2 (create_crisis v t1 s).2).2.cases =
      s.cases ++ [(create_crisis v t1 s).1, (create_crisis v t2 (create_crisis v t1 s).2).1] ∧
    (create_crisis v t1 s).1.created_at = t1 ∧
    (create_crisis v t2 (create_crisis v t1 s).2).1.created_at = t2 ∧
    (register_volunteer w t1 s).1.id ≠
      (register_volunteer w t2 (register_volunteer w t1 s).2).1.id ∧
    (register_volunteer w t2 (register_volunteer w t1 s).2).2.volunteers =
      s.volunteers ++
        [(register_volunteer w t1 s).1,
          (register_volunteer w t2 (register_volunteer w t1 s).2).1] := by
  have hid : (create_crisis v t1 s).1.id ≠ (create_crisis v t2 (create_crisis v t1 s).2).1.id := by
    simp [create_crisis]
  refine ⟨hid, fun h => hid (congrArg CrisisCase.id h), ?_, rfl, rfl, ?_, ?_⟩
  · simp [create_crisis]
  · simp [register_volunteer]
  · simp [register_volunteer]

/-- Claim C10: an absent `people_affected` or `available_resources` key
defaults to `0` and contributes no error, so an otherwise-valid submission
omitting them is accepted with those counts `0`; by the same defaulting, an
absent `severity` or `urgency` key yields the range error (the value is
treated as `0`), not a missing-field or type error. -/
theorem absent_fields_default (d : CrisisForm) :
    (d.people_affected = none →
      formInt d.people_affected = some 0 ∧
      peopleAffectedErrors (formInt d.people_affected) = []) ∧
    (d.available_resources = none →
      formInt d.available_resources = some 0 ∧
      availableResourcesErrors (formInt d.available_resources) = []) ∧
    (d.severity = none →
      severityErrors (formInt d.severity) = ["Severity must be between 1 and 5"]) ∧
    (d.urgency = none →
      urgencyErrors (formInt d.urgency) = ["Urgency must be between 1 and 5"]) ∧
    (∀ c, validate_create d = Except.ok c → d.people_affected = none →
      c.people_affected = 0) ∧
    (∀ c, validate_create d = Except.ok c → d.available_resources = none →
      c.available_resources = 0) ∧
    (d.people_affected = none → d.available_resources = none →
      5 ≤ (formStr d.title).length → (formStr d.title).length ≤ 200 →
      20 ≤ (formStr d.description).length → (formStr d.description).length ≤ 5000 →
      (∃ n, formInt d.severity = some n ∧ 1 ≤ n ∧ n ≤ 5) →
      (∃ n, formInt d.urgency = some n ∧ 1 ≤ n ∧ n ≤ 5) →
      3 ≤ (formStr d.required_skill).length → (formStr d.required_skill).length ≤ 100 →
      validate_create d = Except.ok (cleanedOf d) ∧
        (cleanedOf d).people_affected = 0 ∧ (cleanedOf d).available_resources = 0) := by
  have hokeq : ∀ c, validate_create d = Except.ok c → c = cleanedOf d := by
    intro c h
    unfold validate_create at h
    split_ifs at h with h2
    injection h with h
    exact h.symm
  refine ⟨fun h => ?_, fun h => ?_, fun h => ?_, fun h => ?_,
    fun c hc hn => ?_, fun c hc hn => ?_, fun hp hr u1 u2 u3 u4 u5 u6 u7 u8 => ?_⟩
  · rw [h]; exact ⟨rfl, rfl⟩
  · rw [h]; exact ⟨rfl, rfl⟩
  · rw [h]; rfl
  · rw [h]; rfl
  · rw [hokeq c hc]
    show (formInt d.people_affected).getD 0 = 0
    rw [hn]
    rfl
  · rw [hokeq c hc]
    show (formInt d.available_resources).getD 0 = 0
    rw [hn]
    rfl
  · refine ⟨validate_create_ok_of_valid d u1 u2 u3 u4 u5 u6 ?_ ?_ u7 u8, ?_, ?_⟩
    · exact ⟨0, by rw [hp]; exact ⟨rfl, by omega⟩⟩
    · exact ⟨0, by rw [hr]; exact ⟨rfl, by omega⟩⟩
    · show (formInt d.people_affected).getD 0 = 0
      rw [hp]
      rfl
    · show (formInt d.available_resources).getD 0 = 0
      rw [hr]
      rfl

/-- Witness for C10: the concrete submission omitting both count fields is
accepted with both counts `0`, and its absent-severity variant yields the
range error. -/
theorem absent_fields_default_witness :
    (validate_create dNoCounts = Except.ok (cleanedOf dNoCounts) ∧
      (cleanedOf dNoCounts).people_affected = 0 ∧
      (cleanedOf dNoCounts).available_resources = 0) ∧
    severityErrors (formInt (CrisisForm.mk none none none none none none none).severity) =
      ["Severity must be between 1 and 5"] :=
  ⟨(absent_fields_default dNoCounts).2.2.2.2.2.2 rfl rfl (by decide) (by decide) (by decide)
      (by decide) ⟨3, by decide⟩ ⟨4, by decide⟩ (by decide) (by decide),
   (absent_fields_default (CrisisForm.mk none none none none none none none)).2.2.1 rfl⟩

end ImpactBridge
